import Mathlib

/-!
# Verification of the OU access-toggle service (`main.py`)

Shallow embedding of the Python source in `src/main.py` of the
`gws-yt-access-control` repository, together with theorems settling the
specification claims.

Modelling conventions:

* Time: the code works with `datetime.utcnow().isoformat()` strings and
  compares them lexicographically; for UTC ISO timestamps produced by
  `isoformat()` the lexicographic order agrees with chronological order, so
  we model instants as `Nat` seconds.  The rounding in
  `schedule_revert_job` (`replace(second=0, microsecond=0) + 1 minute`)
  becomes flooring to a multiple of 60 and adding 60.  Each handler
  invocation reads the clock several times within microseconds; we model a
  single instant `now` per invocation.
* The GCS blob keyed by `USER_EMAIL` is modelled as `Option UserData` for
  the single configured user (`write_data_to_gcs` overwrites that entry).
* The directory service is a record holding the user's actual OU
  (`none` models a failing `users().get` lookup, which `get_user_ou` turns
  into `None`) together with a flag saying whether a `users().update` call
  would succeed.  `set_user_ou` additionally reports how many update API
  calls it issued.
* Cloud Scheduler is a record holding the (at most one) existing revert
  job's next-run instant, plus a flag saying whether `create_job` would
  succeed.  `delete_job` is modelled as always succeeding (the code
  swallows `NotFound`).
* Handlers that can raise an uncaught Python exception return `Option`:
  `none` models the uncaught exception escaping the handler.
-/

namespace GwsYt

/-- The environment-derived configuration constants of `main.py`. -/
structure Config where
  API_KEY : String
  UNRESTRICTED_OU : String
  RESTRICTED_OU : String
  UNRESTRICTED_SWITCH_LIMIT : Nat
  DURATION_MINUTES : Nat
deriving Repr, DecidableEq

/-- The per-user record stored in the GCS blob (`initialize_user_data`
defaults).  `expiration_time_utc` is a nullable instant. -/
structure UserData where
  unrestricted_switches : Nat
  last_request_date : String
  ou_state : String
  expiration_time_utc : Option Nat
deriving Repr, DecidableEq

/-- The directory service's state for the configured user: the actual OU
(`none` = lookup fails with `HttpError`) and whether an update call
succeeds. -/
structure Directory where
  ou : Option String
  updateOk : Bool
deriving Repr, DecidableEq

/-- Cloud Scheduler state: the existing revert job's next-run instant, if a
job exists, and whether `create_job` succeeds. -/
structure Scheduler where
  job : Option Nat
  createOk : Bool
deriving Repr, DecidableEq

/-- The external state an invocation reads and writes: the stored record,
the directory and the scheduler. -/
structure SysState where
  store : Option UserData
  dir : Directory
  sched : Scheduler
deriving Repr, DecidableEq

/-- `get_user_ou` (main.py:123): returns the actual OU or `None` on a
lookup error. -/
def get_user_ou (dir : Directory) : Option String :=
  dir.ou

/-- Result of `set_user_ou`: the returned boolean, the directory state
afterwards, and the number of `users().update` API calls issued. -/
structure SetOuResult where
  ok : Bool
  dir : Directory
  updateCalls : Nat
deriving Repr, DecidableEq

/-- `set_user_ou` (main.py:133): fetch the current OU; on fetch failure
return `False`; if already in the target OU return `True` without an
update call; otherwise issue the update, which succeeds or fails. -/
def set_user_ou (dir : Directory) (target : String) : SetOuResult :=
  match get_user_ou dir with
  | none => ⟨false, dir, 0⟩
  | some cur =>
    if cur = target then ⟨true, dir, 0⟩
    else if dir.updateOk then ⟨true, { dir with ou := some target }, 1⟩
    else ⟨false, dir, 1⟩

/-- `check_api_key` (main.py:83): the `x-api-key` header must be present,
non-empty (Python truthiness of the string) and equal to `API_KEY`. -/
def check_api_key (cfg : Config) (apiKey : Option String) : Bool :=
  match apiKey with
  | none => false
  | some k => if k = "" then false else k = cfg.API_KEY

/-- `initialize_user_data` (main.py:164): defaults for a missing record,
counter reset on date rollover, then persist.  Returns the record and the
store after the write. -/
def initialize_user_data (cfg : Config) (current_date : String)
    (store : Option UserData) : UserData × Option UserData :=
  let user_data : UserData :=
    match store with
    | none =>
        { unrestricted_switches := 0
          last_request_date := current_date
          ou_state := cfg.RESTRICTED_OU
          expiration_time_utc := none }
    | some u =>
        if u.last_request_date ≠ current_date then
          { u with unrestricted_switches := 0, last_request_date := current_date }
        else u
  (user_data, some user_data)

/-- `hours_until_midnight` (main.py:201): `nowLocal` is seconds into the
current local day; `timedelta.seconds` of the difference to next midnight,
integer-divided by 3600 (0 at exactly midnight, matching Python). -/
def hours_until_midnight (nowLocal : Nat) : Nat :=
  (86400 - nowLocal % 86400) % 86400 / 3600

/-- `has_exceeded_switch_limit` (main.py:208). -/
def has_exceeded_switch_limit (cfg : Config) (user_data : UserData) : Bool :=
  user_data.unrestricted_switches ≥ cfg.UNRESTRICTED_SWITCH_LIMIT

/-- Result of `move_user_to_restricted_on_expiry`: HTTP status, the
`success` flag of the response, the returned record, and the directory and
store afterwards. -/
structure RevertResult where
  status : Nat
  success : Bool
  user_data : UserData
  dir : Directory
  store : Option UserData
deriving Repr, DecidableEq

/-- `move_user_to_restricted_on_expiry` (main.py:215): set the OU to
`RESTRICTED_OU`; on failure 503 with nothing written; on success clear the
expiration, set `ou_state`, persist, 200. -/
def move_user_to_restricted_on_expiry (cfg : Config) (dir : Directory)
    (user_data : UserData) (store : Option UserData) : RevertResult :=
  let r := set_user_ou dir cfg.RESTRICTED_OU
  if r.ok then
    let ud : UserData :=
      { user_data with ou_state := cfg.RESTRICTED_OU, expiration_time_utc := none }
    ⟨200, true, ud, r.dir, some ud⟩
  else
    ⟨503, false, user_data, r.dir, store⟩

/-- The rounded target computed at main.py:495-498: `utcnow + DURATION`
with seconds (and microseconds) zeroed, plus one minute. -/
def roundedTarget (cfg : Config) (now : Nat) : Nat :=
  (now + cfg.DURATION_MINUTES * 60) / 60 * 60 + 60

/-- Result of `schedule_revert_job`: the returned expiration instant
(`none` = scheduling failed) and the scheduler state afterwards. -/
structure ScheduleResult where
  time : Option Nat
  sched : Scheduler
deriving Repr, DecidableEq

/-- `schedule_revert_job` (main.py:487): if a job exists whose next run is
more than `DURATION_MINUTES` minutes away, delete it and create a fresh
one at the rounded target; if it exists and is not, reuse it and return
its time; if none exists, create a fresh one.  `create_job` failure
returns `None`. -/
def schedule_revert_job (cfg : Config) (now : Nat) (sched : Scheduler) :
    ScheduleResult :=
  match sched.job with
  | some t =>
    if t > now + cfg.DURATION_MINUTES * 60 then
      if sched.createOk then
        ⟨some (roundedTarget cfg now),
          { sched with job := some (roundedTarget cfg now) }⟩
      else ⟨none, { sched with job := none }⟩
    else ⟨some t, sched⟩
  | none =>
    if sched.createOk then
      ⟨some (roundedTarget cfg now),
        { sched with job := some (roundedTarget cfg now) }⟩
    else ⟨none, sched⟩

/-- `delete_scheduler_job` (main.py:609), modelled as succeeding. -/
def delete_scheduler_job (sched : Scheduler) : Scheduler :=
  { sched with job := none }

/-- Result of `transfer_user_to_unrestricted_ou`: status, `success` flag,
returned record, and the directory, store and scheduler afterwards. -/
structure TransferResult where
  status : Nat
  success : Bool
  user_data : UserData
  dir : Directory
  store : Option UserData
  sched : Scheduler
deriving Repr, DecidableEq

/-- `transfer_user_to_unrestricted_ou` (main.py:295): set the OU to
`UNRESTRICTED_OU` (failure: 503, nothing written); increment the switch
count and persist; schedule the revert job (failure: 503, increment
already persisted); record the expiration and new `ou_state`, persist,
200. -/
def transfer_user_to_unrestricted_ou (cfg : Config) (now : Nat)
    (dir : Directory) (sched : Scheduler) (user_data : UserData)
    (store : Option UserData) : TransferResult :=
  let r := set_user_ou dir cfg.UNRESTRICTED_OU
  if r.ok then
    let ud1 : UserData :=
      { user_data with
          unrestricted_switches := user_data.unrestricted_switches + 1 }
    let s := schedule_revert_job cfg now sched
    match s.time with
    | none => ⟨503, false, ud1, r.dir, some ud1, s.sched⟩
    | some e =>
      let ud2 : UserData :=
        { ud1 with
            expiration_time_utc := some e
            ou_state := cfg.UNRESTRICTED_OU }
      ⟨200, true, ud2, r.dir, some ud2, s.sched⟩
  else
    ⟨503, false, user_data, dir, store, sched⟩

/-- Result of `toggle_access`: HTTP status, `success` flag, the hours
figure embedded in the 403 rate-limit message (`none` on every other
path), and the external state afterwards. -/
structure ToggleResult where
  status : Nat
  success : Bool
  rateLimitHours : Option Nat
  state : SysState
deriving Repr, DecidableEq

/-- `toggle_access` (main.py:361).  `now` is the UTC instant,
`nowLocal` the seconds into the local day (for `hours_until_midnight`),
`current_date` the local ISO date, `apiKey` the `x-api-key` header.
Order of operations as in the source: initialize + persist the record,
rate-limit check (403), API-key check (401), then the 4-way scenario
dispatch on the actual OU and the cached expiration. -/
def toggle_access (cfg : Config) (now nowLocal : Nat) (current_date : String)
    (apiKey : Option String) (st : SysState) : ToggleResult :=
  let init := initialize_user_data cfg current_date st.store
  let user_data := init.1
  let store1 := init.2
  if has_exceeded_switch_limit cfg user_data then
    ⟨403, false, some (hours_until_midnight nowLocal),
      { st with store := store1 }⟩
  else if ¬ check_api_key cfg apiKey then
    ⟨401, false, none, { st with store := store1 }⟩
  else
    let current_ou := get_user_ou st.dir
    if current_ou = some cfg.UNRESTRICTED_OU then
      match user_data.expiration_time_utc with
      | none =>
        let r := move_user_to_restricted_on_expiry cfg st.dir user_data store1
        ⟨r.status, r.success, none, { st with store := r.store, dir := r.dir }⟩
      | some e =>
        if now > e then
          let r := move_user_to_restricted_on_expiry cfg st.dir user_data store1
          ⟨r.status, r.success, none, { st with store := r.store, dir := r.dir }⟩
        else
          ⟨200, true, none, { st with store := store1 }⟩
    else
      let r := transfer_user_to_unrestricted_ou cfg now st.dir st.sched
        user_data store1
      ⟨r.status, r.success, none, ⟨r.store, r.dir, r.sched⟩⟩

/-- Result of `cron_revert_ou`: HTTP status, the `success` flag of the 200
response (`false` on the 405 and 503 responses, whose bodies carry no
`success` field), whether the revert branch was entered, and the external
state afterwards. -/
structure CronResult where
  status : Nat
  success : Bool
  revertAttempted : Bool
  state : SysState
deriving Repr, DecidableEq

/-- `cron_revert_ou` (main.py:552).  Returns `none` when the handler
raises an uncaught exception: `users_data.get(USER_EMAIL)` being `None`
(`AttributeError` on `.get`), or comparing the current time against a
`None` expiration (`TypeError`).  Otherwise: revert when the record says
UNRESTRICTED with `now ≥ expiration`, or the actual OU is UNRESTRICTED
while the record disagrees; on a successful revert delete the job; on a
failed revert return 503; finally reset the counter on date rollover and
answer 200 with `success = (ou_state == RESTRICTED_OU)`. -/
def cron_revert_ou (cfg : Config) (now : Nat) (current_date : String)
    (method : String) (st : SysState) : Option CronResult :=
  if method ≠ "POST" then
    some ⟨405, false, false, st⟩
  else
    match st.store with
    | none => none
    | some user_data =>
      let current_ou := get_user_ou st.dir
      if user_data.ou_state = cfg.UNRESTRICTED_OU ∧
          user_data.expiration_time_utc = none then
        none
      else
        let expPassed : Bool :=
          match user_data.expiration_time_utc with
          | some e => decide (now ≥ e)
          | none => false
        let cond : Bool :=
          (decide (user_data.ou_state = cfg.UNRESTRICTED_OU) && expPassed) ||
          (decide (current_ou = some cfg.UNRESTRICTED_OU) &&
            decide (user_data.ou_state ≠ cfg.UNRESTRICTED_OU))
        if cond then
          let r := move_user_to_restricted_on_expiry cfg st.dir user_data
            st.store
          if r.status = 200 then
            let sched1 := delete_scheduler_job st.sched
            let rollover := r.user_data.last_request_date ≠ current_date
            let ud2 : UserData :=
              if rollover then
                { r.user_data with
                    unrestricted_switches := 0
                    last_request_date := current_date }
              else r.user_data
            let store2 := if rollover then some ud2 else r.store
            some ⟨200, ud2.ou_state = cfg.RESTRICTED_OU, true,
              ⟨store2, r.dir, sched1⟩⟩
          else
            some ⟨r.status, false, true, ⟨r.store, r.dir, st.sched⟩⟩
        else
          let rollover := user_data.last_request_date ≠ current_date
          let ud2 : UserData :=
            if rollover then
              { user_data with
                  unrestricted_switches := 0
                  last_request_date := current_date }
            else user_data
          let store2 := if rollover then some ud2 else st.store
          some ⟨200, ud2.ou_state = cfg.RESTRICTED_OU, false,
            ⟨store2, st.dir, st.sched⟩⟩

/-! ## Spec-side definition

The spec phrases the scheduling bound as "promotion time + configured
duration in minutes, rounded up to the next whole minute".  The following
definition follows those words (it is not taken from the code, which
instead floors to the minute and adds one). -/

/-- Modelled from the spec's words: `n` seconds rounded up to the next
whole minute boundary (the least multiple of 60 that is `≥ n`). -/
def specCeilToMinute (n : Nat) : Nat :=
  (n + 59) / 60 * 60

/-! ## Concrete fixtures for counterexamples and witnesses -/

/-- A concrete configuration: limit 3 switches/day, 30-minute duration. -/
def cfgEx : Config := ⟨"k", "/U", "/R", 3, 30⟩

/-! ## Helper lemmas -/

/-- Whenever `schedule_revert_job` returns a time, the scheduler afterwards
holds a job at exactly that time, and the time is either the freshly
rounded target (which dominates the spec's ceiling) or the reused existing
job's time, which the reuse guard bounds by `now + duration`. -/
theorem schedule_revert_job_time_cases (cfg : Config) (now : Nat)
    (sched : Scheduler) (e : Nat)
    (h : (schedule_revert_job cfg now sched).time = some e) :
    schedule_revert_job cfg now sched = ⟨some e, { sched with job := some e }⟩ ∧
    (e = roundedTarget cfg now ∨
      (sched.job = some e ∧ e ≤ now + cfg.DURATION_MINUTES * 60)) := by
  rcases sched with ⟨job, ok⟩
  rcases job with _ | t
  · rcases ok
    · simp [schedule_revert_job] at h
    · have he : roundedTarget cfg now = e := by
        simpa [schedule_revert_job] using h
      subst he
      exact ⟨rfl, Or.inl rfl⟩
  · by_cases ht : t > now + cfg.DURATION_MINUTES * 60
    · rcases ok
      · simp [schedule_revert_job, ht] at h
      · have he : roundedTarget cfg now = e := by
          simpa [schedule_revert_job, ht] using h
        subst he
        refine ⟨?_, Or.inl rfl⟩
        simp [schedule_revert_job, ht]
    · have he : t = e := by
        simpa [schedule_revert_job, ht] using h
      subst he
      refine ⟨?_, Or.inr ⟨rfl, by omega⟩⟩
      simp [schedule_revert_job, ht]

/-- The code's rounding (floor to the minute, plus one minute) dominates
the spec's ceiling-to-the-next-minute. -/
theorem roundedTarget_ge_specCeil (cfg : Config) (now : Nat) :
    specCeilToMinute (now + cfg.DURATION_MINUTES * 60) ≤ roundedTarget cfg now := by
  unfold specCeilToMinute roundedTarget
  omega

/-- A successful `set_user_ou` leaves the user in the target OU. -/
theorem set_user_ou_ok_ou (dir : Directory) (target : String)
    (h : (set_user_ou dir target).ok = true) :
    (set_user_ou dir target).dir.ou = some target := by
  rcases dir with ⟨ou, upd⟩
  rcases ou with _ | cur
  · simp [set_user_ou, get_user_ou] at h
  · by_cases hc : cur = target
    · simp [set_user_ou, get_user_ou, hc]
    · rcases upd
      · simp [set_user_ou, get_user_ou, hc] at h
      · simp [set_user_ou, get_user_ou, hc]

/-- A 200 from `move_user_to_restricted_on_expiry` means the directory
update succeeded and the record was rewritten restricted with a cleared
expiration. -/
theorem move_200_eq (cfg : Config) (dir : Directory) (ud : UserData)
    (store : Option UserData)
    (h : (move_user_to_restricted_on_expiry cfg dir ud store).status = 200) :
    move_user_to_restricted_on_expiry cfg dir ud store =
      ⟨200, true,
        ⟨ud.unrestricted_switches, ud.last_request_date, cfg.RESTRICTED_OU, none⟩,
        (set_user_ou dir cfg.RESTRICTED_OU).dir,
        some ⟨ud.unrestricted_switches, ud.last_request_date,
          cfg.RESTRICTED_OU, none⟩⟩ := by
  rcases hok : (set_user_ou dir cfg.RESTRICTED_OU).ok
  · simp [move_user_to_restricted_on_expiry, hok] at h
  · simp [move_user_to_restricted_on_expiry, hok]

/-- A 200 from `transfer_user_to_unrestricted_ou` means: directory update
succeeded, counter incremented, scheduling returned a time `e`, which is
recorded as the expiration and is the scheduler's job time. -/
theorem transfer_200_cases (cfg : Config) (now : Nat) (dir : Directory)
    (sched : Scheduler) (ud : UserData) (store : Option UserData)
    (h : (transfer_user_to_unrestricted_ou cfg now dir sched ud store).status = 200) :
    ∃ e, (schedule_revert_job cfg now sched).time = some e ∧
      transfer_user_to_unrestricted_ou cfg now dir sched ud store =
        ⟨200, true,
          { unrestricted_switches := ud.unrestricted_switches + 1
            last_request_date := ud.last_request_date
            ou_state := cfg.UNRESTRICTED_OU
            expiration_time_utc := some e },
          (set_user_ou dir cfg.UNRESTRICTED_OU).dir,
          some
            { unrestricted_switches := ud.unrestricted_switches + 1
              last_request_date := ud.last_request_date
              ou_state := cfg.UNRESTRICTED_OU
              expiration_time_utc := some e },
          { sched with job := some e }⟩ := by
  rcases hok : (set_user_ou dir cfg.UNRESTRICTED_OU).ok
  · simp [transfer_user_to_unrestricted_ou, hok] at h
  · rcases hs : (schedule_revert_job cfg now sched).time with _ | e
    · simp [transfer_user_to_unrestricted_ou, hok, hs] at h
    · refine ⟨e, rfl, ?_⟩
      have hsch := (schedule_revert_job_time_cases cfg now sched e hs).1
      simp [transfer_user_to_unrestricted_ou, hok, hs, hsch]

/-! ## Claims -/

/-- **C10.** For every call to `set_user_ou` where the user's current
directory OU already equals the target OU, the function returns `True`
without issuing any directory update, leaving the directory state
unchanged; applying `set_user_ou` twice with the same target is
equivalent to applying it once (the directory state after two
applications equals the state after one). -/
theorem set_user_ou_already_in_target_and_idempotent :
    (∀ dir target, dir.ou = some target →
      set_user_ou dir target = ⟨true, dir, 0⟩) ∧
    (∀ dir target,
      (set_user_ou (set_user_ou dir target).dir target).dir =
        (set_user_ou dir target).dir) := by
  constructor
  · intro dir target h
    simp [set_user_ou, get_user_ou, h]
  · intro dir target
    rcases hou : dir.ou with _ | cur
    · simp [set_user_ou, get_user_ou, hou]
    · by_cases hc : cur = target
      · simp [set_user_ou, get_user_ou, hou, hc]
      · rcases hu : dir.updateOk <;>
          simp [set_user_ou, get_user_ou, hou, hc, hu]

/-- Witness for C10 at a concrete input: a user already in the target OU
is left untouched with no update call. -/
theorem set_user_ou_already_in_target_witness :
    set_user_ou ⟨some "/U", true⟩ "/U" = ⟨true, ⟨some "/U", true⟩, 0⟩ :=
  set_user_ou_already_in_target_and_idempotent.1 ⟨some "/U", true⟩ "/U" rfl

/-- A state with the user in the restricted OU and an existing revert job
due 60 seconds after the promotion instant 10000. -/
def stNearJob : SysState :=
  ⟨some ⟨0, "d", "/R", none⟩, ⟨some "/R", true⟩, ⟨some 10060, true⟩⟩

/-- **C1** counterexample: promoting at instant 10000 (config `cfgEx`,
30-minute duration) with an existing job due at 10060 reuses that job:
the toggle answers 200 and records expiration 10060 with the job still at
10060, strictly below the claimed lower bound of 10000 + 30 min rounded
up to the next whole minute (11820). -/
theorem promotion_reuse_below_bound_cex :
    (toggle_access cfgEx 10000 0 "d" (some "k") stNearJob).status = 200 ∧
    (toggle_access cfgEx 10000 0 "d" (some "k") stNearJob).state.store =
      some ⟨1, "d", "/U", some 10060⟩ ∧
    (toggle_access cfgEx 10000 0 "d" (some "k") stNearJob).state.sched.job =
      some 10060 ∧
    10060 < specCeilToMinute (10000 + cfgEx.DURATION_MINUTES * 60) := by
  refine ⟨rfl, rfl, rfl, ?_⟩
  norm_num [specCeilToMinute, cfgEx]

/-- **C1 (amended).** For every promotion performed by the toggle handler
(user not found in the unrestricted OU, answered 200), the expiration it
records equals the scheduled job's target time, and that time is either
(fresh job) at least the promotion time plus the configured duration
rounded up to the next whole minute, or (reused existing job) the
existing job's time, which the reuse guard bounds above by the promotion
time plus the configured duration — so the claimed lower bound holds for
fresh jobs but not in general for reused ones. -/
theorem promotion_expiration_and_job_time (cfg : Config) (now nowLocal : Nat)
    (d : String) (key : Option String) (st : SysState)
    (hou : ¬ st.dir.ou = some cfg.UNRESTRICTED_OU)
    (h200 : (toggle_access cfg now nowLocal d key st).status = 200) :
    ∃ u e, (toggle_access cfg now nowLocal d key st).state.store = some u ∧
      u.expiration_time_utc = some e ∧
      (toggle_access cfg now nowLocal d key st).state.sched.job = some e ∧
      (specCeilToMinute (now + cfg.DURATION_MINUTES * 60) ≤ e ∨
        (st.sched.job = some e ∧ e ≤ now + cfg.DURATION_MINUTES * 60)) := by
  by_cases hlim :
      has_exceeded_switch_limit cfg (initialize_user_data cfg d st.store).1 = true
  · simp [toggle_access, hlim] at h200
  · by_cases hkey : check_api_key cfg key = true
    · have hred : toggle_access cfg now nowLocal d key st =
          ⟨(transfer_user_to_unrestricted_ou cfg now st.dir st.sched
              (initialize_user_data cfg d st.store).1
              (initialize_user_data cfg d st.store).2).status,
           (transfer_user_to_unrestricted_ou cfg now st.dir st.sched
              (initialize_user_data cfg d st.store).1
              (initialize_user_data cfg d st.store).2).success,
           none,
           ⟨(transfer_user_to_unrestricted_ou cfg now st.dir st.sched
              (initialize_user_data cfg d st.store).1
              (initialize_user_data cfg d st.store).2).store,
            (transfer_user_to_unrestricted_ou cfg now st.dir st.sched
              (initialize_user_data cfg d st.store).1
              (initialize_user_data cfg d st.store).2).dir,
            (transfer_user_to_unrestricted_ou cfg now st.dir st.sched
              (initialize_user_data cfg d st.store).1
              (initialize_user_data cfg d st.store).2).sched⟩⟩ := by
        simp [toggle_access, hlim, hkey, get_user_ou, hou]
      rw [hred] at h200 ⊢
      obtain ⟨e, hs, htr⟩ := transfer_200_cases cfg now st.dir st.sched
        (initialize_user_data cfg d st.store).1
        (initialize_user_data cfg d st.store).2 h200
      rw [htr]
      refine ⟨_, e, rfl, rfl, rfl, ?_⟩
      rcases (schedule_revert_job_time_cases cfg now st.sched e hs).2 with hfresh | hreuse
      · exact Or.inl (hfresh ▸ roundedTarget_ge_specCeil cfg now)
      · exact Or.inr hreuse
    · simp [toggle_access, hlim, hkey] at h200

/-- Witness for C1 (amended): a fresh-job promotion at instant 0 from the
restricted OU with an empty scheduler records expiration 1860 = the
rounded target. -/
theorem promotion_expiration_and_job_time_witness :
    ¬ (⟨some ⟨0, "d", "/R", none⟩, ⟨some "/R", true⟩,
        (⟨none, true⟩ : Scheduler)⟩ : SysState).dir.ou = some cfgEx.UNRESTRICTED_OU ∧
    (toggle_access cfgEx 0 0 "d" (some "k")
      ⟨some ⟨0, "d", "/R", none⟩, ⟨some "/R", true⟩, ⟨none, true⟩⟩).status = 200 ∧
    ∃ u e, (toggle_access cfgEx 0 0 "d" (some "k")
        ⟨some ⟨0, "d", "/R", none⟩, ⟨some "/R", true⟩, ⟨none, true⟩⟩).state.store =
        some u ∧
      u.expiration_time_utc = some e ∧
      (toggle_access cfgEx 0 0 "d" (some "k")
        ⟨some ⟨0, "d", "/R", none⟩, ⟨some "/R", true⟩, ⟨none, true⟩⟩).state.sched.job =
        some e ∧
      (specCeilToMinute (0 + cfgEx.DURATION_MINUTES * 60) ≤ e ∨
        ((⟨none, true⟩ : Scheduler).job = some e ∧
          e ≤ 0 + cfgEx.DURATION_MINUTES * 60)) :=
  ⟨by decide, by decide,
    promotion_expiration_and_job_time cfgEx 0 0 "d" (some "k")
      ⟨some ⟨0, "d", "/R", none⟩, ⟨some "/R", true⟩, ⟨none, true⟩⟩
      (by decide) (by decide)⟩

/-- A state with the user actually in the unrestricted OU, a record with a
null expiration, and an existing revert job at 999. -/
def stUnrestrictedNoExp : SysState :=
  ⟨some ⟨0, "d", "/U", none⟩, ⟨some "/U", true⟩, ⟨some 999, true⟩⟩

/-- **C2** counterexample: a toggle-handler reversion (user in the
unrestricted OU with no recorded expiration) answers 200 and clears the
stored expiration, but the scheduled revert job at 999 is NOT deleted —
refuting the claim that every reversion deletes the user's scheduled
job. -/
theorem toggle_reversion_keeps_job_cex :
    (toggle_access cfgEx 10000 0 "d" (some "k") stUnrestrictedNoExp).status = 200 ∧
    (toggle_access cfgEx 10000 0 "d" (some "k") stUnrestrictedNoExp).state.store =
      some ⟨0, "d", "/R", none⟩ ∧
    (toggle_access cfgEx 10000 0 "d" (some "k") stUnrestrictedNoExp).state.sched.job =
      some 999 := by
  exact ⟨rfl, rfl, rfl⟩

/-- **C2 (amended).** Every successful reversion (toggle handler or revert
callback) clears `expiration_time_utc` in the stored record; the revert
callback additionally deletes the user's scheduled job, but the toggle
handler's reversion paths leave the scheduler entirely untouched. -/
theorem reversion_clears_expiration_cron_deletes_job :
    (∀ cfg dir ud store,
      (move_user_to_restricted_on_expiry cfg dir ud store).status = 200 →
      ∃ u, (move_user_to_restricted_on_expiry cfg dir ud store).store = some u ∧
        u.expiration_time_utc = none ∧ u.ou_state = cfg.RESTRICTED_OU) ∧
    (∀ cfg now nowLocal d key st, st.dir.ou = some cfg.UNRESTRICTED_OU →
      (toggle_access cfg now nowLocal d key st).state.sched = st.sched) ∧
    (∀ cfg now d method st r, cron_revert_ou cfg now d method st = some r →
      r.status = 200 → r.revertAttempted = true →
      r.state.sched.job = none ∧
      ∃ u, r.state.store = some u ∧ u.expiration_time_utc = none) := by
  refine ⟨?_, ?_, ?_⟩
  · intro cfg dir ud store h
    rw [move_200_eq cfg dir ud store h]
    exact ⟨_, rfl, rfl, rfl⟩
  · intro cfg now nowLocal d key st hou
    by_cases hlim :
        has_exceeded_switch_limit cfg (initialize_user_data cfg d st.store).1 = true
    · simp [toggle_access, hlim]
    · by_cases hkey : check_api_key cfg key = true
      · rcases hexp : (initialize_user_data cfg d st.store).1.expiration_time_utc
          with _ | e
        · simp [toggle_access, hlim, hkey, get_user_ou, hou, hexp]
        · by_cases hnow : now > e
          · simp [toggle_access, hlim, hkey, get_user_ou, hou, hexp, hnow]
          · simp [toggle_access, hlim, hkey, get_user_ou, hou, hexp, hnow]
      · simp [toggle_access, hlim, hkey]
  · intro cfg now d method st r h h200 hatt
    obtain ⟨store, dir, sched⟩ := st
    by_cases hm : method = "POST"
    · rcases store with _ | ud
      · simp [cron_revert_ou, hm] at h
      · by_cases hg : ud.ou_state = cfg.UNRESTRICTED_OU ∧
            ud.expiration_time_utc = none
        · simp [cron_revert_ou, hm, hg] at h
        · by_cases hc :
              ((decide (ud.ou_state = cfg.UNRESTRICTED_OU) &&
                match ud.expiration_time_utc with
                | some e => decide (now ≥ e)
                | none => false) ||
               (decide (get_user_ou dir = some cfg.UNRESTRICTED_OU) &&
                decide (¬ ud.ou_state = cfg.UNRESTRICTED_OU))) = true
          · by_cases hr :
                (move_user_to_restricted_on_expiry cfg dir ud (some ud)).status = 200
            · have hmq := move_200_eq cfg dir ud (some ud) hr
              simp only [cron_revert_ou, hm, hg, hc, hmq] at h
              by_cases hro : ud.last_request_date ≠ d <;>
                  simp [hro, delete_scheduler_job] at h <;>
                rcases h with rfl <;>
                exact ⟨rfl, _, rfl, rfl⟩
            · simp only [cron_revert_ou, hm, hg, hc] at h
              rw [if_neg hr] at h
              simp at h
              rcases h with rfl
              exact absurd h200 hr
          · simp only [cron_revert_ou, hm, hg, hc] at h
            by_cases hro : ud.last_request_date ≠ d <;>
              simp [hro] at h <;> rcases h with rfl <;> simp at hatt
    · simp [cron_revert_ou, hm] at h
      rcases h with rfl
      simp at hatt

/-- Witness for C2 (amended) at concrete inputs: a successful directory
reversion clears the stored expiration; an unrestricted-OU toggle keeps
the scheduler untouched; a POST revert callback that reverts (expiration
20000 ≤ now 30000) deletes the job and clears the expiration. -/
theorem reversion_clears_expiration_cron_deletes_job_witness :
    (∃ u, (move_user_to_restricted_on_expiry cfgEx ⟨some "/U", true⟩
          ⟨1, "d", "/U", some 5⟩ (some ⟨1, "d", "/U", some 5⟩)).store = some u ∧
        u.expiration_time_utc = none ∧ u.ou_state = cfgEx.RESTRICTED_OU) ∧
    (toggle_access cfgEx 10000 0 "d" (some "k") stUnrestrictedNoExp).state.sched =
      stUnrestrictedNoExp.sched ∧
    ((⟨200, true, true, ⟨some ⟨1, "d", "/R", none⟩, ⟨some "/R", true⟩,
          ⟨none, true⟩⟩⟩ : CronResult).state.sched.job = none ∧
      ∃ u, (⟨200, true, true, ⟨some ⟨1, "d", "/R", none⟩, ⟨some "/R", true⟩,
          ⟨none, true⟩⟩⟩ : CronResult).state.store = some u ∧
        u.expiration_time_utc = none) :=
  ⟨reversion_clears_expiration_cron_deletes_job.1 cfgEx ⟨some "/U", true⟩
      ⟨1, "d", "/U", some 5⟩ (some ⟨1, "d", "/U", some 5⟩) (by decide),
   reversion_clears_expiration_cron_deletes_job.2.1 cfgEx 10000 0 "d"
      (some "k") stUnrestrictedNoExp (by decide),
   reversion_clears_expiration_cron_deletes_job.2.2 cfgEx 30000 "d" "POST"
      ⟨some ⟨1, "d", "/U", some 20000⟩, ⟨some "/U", true⟩, ⟨some 20040, true⟩⟩
      ⟨200, true, true, ⟨some ⟨1, "d", "/R", none⟩, ⟨some "/R", true⟩,
        ⟨none, true⟩⟩⟩ (by decide) rfl rfl⟩

/-- A state whose stored record is already at the switch limit of
`cfgEx`. -/
def stAtLimit : SysState :=
  ⟨some ⟨3, "d", "/R", none⟩, ⟨some "/R", true⟩, ⟨none, true⟩⟩

/-- **C3** counterexample: with the stored switch count already at the
limit, a request with no x-api-key header is answered 403, not 401 — the
rate-limit check runs before the API-key check. -/
theorem missing_key_rate_limited_cex :
    check_api_key cfgEx none = false ∧
    (toggle_access cfgEx 10000 5000 "d" none stAtLimit).status = 403 ∧
    ¬ (toggle_access cfgEx 10000 5000 "d" none stAtLimit).status = 401 := by
  exact ⟨rfl, rfl, by decide⟩

/-- **C3 (amended).** A toggle request whose x-api-key header is missing
or does not equal the configured secret is answered 401 provided the
stored switch count (after rollover initialization) is below the limit;
at or above the limit the 403 rate-limit response takes precedence over
authentication. -/
theorem missing_key_unauthorized (cfg : Config) (now nowLocal : Nat)
    (d : String) (key : Option String) (st : SysState)
    (hkey : check_api_key cfg key = false)
    (hcount : (initialize_user_data cfg d st.store).1.unrestricted_switches <
      cfg.UNRESTRICTED_SWITCH_LIMIT) :
    (toggle_access cfg now nowLocal d key st).status = 401 := by
  have hlim : has_exceeded_switch_limit cfg
      (initialize_user_data cfg d st.store).1 = false := by
    simp only [has_exceeded_switch_limit, decide_eq_false_iff_not, not_le]
    omega
  simp [toggle_access, hlim, hkey]

/-- Witness for C3 (amended): a concrete below-limit request with no key
is answered 401. -/
theorem missing_key_unauthorized_witness :
    (toggle_access cfgEx 10000 5000 "d" none
      ⟨some ⟨0, "d", "/R", none⟩, ⟨some "/R", true⟩, ⟨none, true⟩⟩).status = 401 :=
  missing_key_unauthorized cfgEx 10000 5000 "d" none
    ⟨some ⟨0, "d", "/R", none⟩, ⟨some "/R", true⟩, ⟨none, true⟩⟩
    (by decide) (by decide)

/-- A state validly unrestricted (expiration ahead) but with the switch
count at `cfgEx`'s limit — e.g. right after the day's last allowed
promotion. -/
def stAtLimitValidElevation : SysState :=
  ⟨some ⟨3, "d", "/U", some 20000⟩, ⟨some "/U", true⟩, ⟨some 20040, true⟩⟩

/-- **C6** counterexample: the user is in the unrestricted OU with an
unexpired recorded expiration (20000 > now 10000) and presents the valid
key, yet the toggle answers 403 because the count is at the limit — as
happens on the second call right after a promotion that used the last
allowed switch. -/
theorem valid_elevation_rate_limited_cex :
    (toggle_access cfgEx 10000 0 "d" (some "k") stAtLimitValidElevation).status = 403 ∧
    ¬ (toggle_access cfgEx 10000 0 "d" (some "k") stAtLimitValidElevation).status
        = 200 := by
  exact ⟨rfl, by decide⟩

/-- **C6 (amended).** With a valid API key and a same-day record whose
switch count is below the limit, while the user is actually in the
unrestricted OU with an unexpired recorded expiration, the toggle answers
200 with success and the entire external state — stored record, directory
OU and scheduled job — is unchanged; hence such a second toggle call
mutates nothing and schedules nothing. -/
theorem valid_elevation_informs_no_mutation (cfg : Config) (now nowLocal : Nat)
    (d : String) (key : Option String) (u : UserData) (st : SysState) (e : Nat)
    (hstore : st.store = some u) (hdate : u.last_request_date = d)
    (hcount : u.unrestricted_switches < cfg.UNRESTRICTED_SWITCH_LIMIT)
    (hkey : check_api_key cfg key = true)
    (hou : st.dir.ou = some cfg.UNRESTRICTED_OU)
    (hexp : u.expiration_time_utc = some e) (hnow : now ≤ e) :
    toggle_access cfg now nowLocal d key st = ⟨200, true, none, st⟩ := by
  have hlim : has_exceeded_switch_limit cfg u = false := by
    simp only [has_exceeded_switch_limit, decide_eq_false_iff_not, not_le]
    omega
  have hngt : ¬ now > e := by omega
  obtain ⟨store, dir, sched⟩ := st
  simp only [SysState.store] at hstore
  subst hstore
  have hinit : initialize_user_data cfg d (some u) = (u, some u) := by
    simp [initialize_user_data, hdate]
  simp only [SysState.dir] at hou
  simp [toggle_access, hinit, hlim, hkey, get_user_ou, hou, hexp, hngt]

/-- Witness for C6 (amended): a concrete second call while validly
unrestricted below the limit answers 200 with the state unchanged. -/
theorem valid_elevation_informs_no_mutation_witness :
    toggle_access cfgEx 10000 0 "d" (some "k")
      ⟨some ⟨1, "d", "/U", some 20000⟩, ⟨some "/U", true⟩, ⟨some 20040, true⟩⟩ =
      ⟨200, true, none,
        ⟨some ⟨1, "d", "/U", some 20000⟩, ⟨some "/U", true⟩, ⟨some 20040, true⟩⟩⟩ :=
  valid_elevation_informs_no_mutation cfgEx 10000 0 "d" (some "k")
    ⟨1, "d", "/U", some 20000⟩
    ⟨some ⟨1, "d", "/U", some 20000⟩, ⟨some "/U", true⟩, ⟨some 20040, true⟩⟩
    20000 rfl rfl (by decide) rfl rfl rfl (by decide)

/-- **C8.** The revert callback handler is not total on its state: with no
stored record, and likewise with a record claiming UNRESTRICTED but a null
expiration, a POST request makes `cron_revert_ou` raise an uncaught
exception (modelled as `none`) instead of returning an HTTP response. -/
theorem cron_revert_ou_not_total :
    cron_revert_ou cfgEx 0 "d" "POST"
      ⟨none, ⟨some "/R", true⟩, ⟨none, true⟩⟩ = none ∧
    cron_revert_ou cfgEx 0 "d" "POST"
      ⟨some ⟨0, "d", "/U", none⟩, ⟨some "/U", true⟩, ⟨none, true⟩⟩ = none := by
  exact ⟨rfl, rfl⟩

/-- **C5.** During promotion: a failed directory update aborts with 503
and leaves the stored record untouched (no counter increment); a
successful directory update followed by a scheduling failure still
returns 503, even though the directory now shows the unrestricted OU and
the incremented counter has already been persisted. -/
theorem promotion_failure_paths (cfg : Config) (now : Nat) (dir : Directory)
    (sched : Scheduler) (ud : UserData) (store : Option UserData) :
    ((set_user_ou dir cfg.UNRESTRICTED_OU).ok = false →
      transfer_user_to_unrestricted_ou cfg now dir sched ud store =
        ⟨503, false, ud, dir, store, sched⟩) ∧
    ((set_user_ou dir cfg.UNRESTRICTED_OU).ok = true →
      (schedule_revert_job cfg now sched).time = none →
      (transfer_user_to_unrestricted_ou cfg now dir sched ud store).status = 503 ∧
      (transfer_user_to_unrestricted_ou cfg now dir sched ud store).store =
        some { ud with
          unrestricted_switches := ud.unrestricted_switches + 1 } ∧
      (transfer_user_to_unrestricted_ou cfg now dir sched ud store).dir.ou =
        some cfg.UNRESTRICTED_OU) := by
  constructor
  · intro hok
    simp [transfer_user_to_unrestricted_ou, hok]
  · intro hok hs
    refine ⟨?_, ?_, ?_⟩ <;>
      simp [transfer_user_to_unrestricted_ou, hok, hs,
        set_user_ou_ok_ou dir cfg.UNRESTRICTED_OU hok]

/-- Witness for C5 at concrete inputs: an update-refusing directory aborts
the promotion untouched; a create-refusing scheduler yields 503 with the
increment persisted and the directory already unrestricted. -/
theorem promotion_failure_paths_witness :
    (transfer_user_to_unrestricted_ou cfgEx 0 ⟨some "/R", false⟩ ⟨none, true⟩
        ⟨0, "d", "/R", none⟩ (some ⟨0, "d", "/R", none⟩) =
      ⟨503, false, ⟨0, "d", "/R", none⟩, ⟨some "/R", false⟩,
        some ⟨0, "d", "/R", none⟩, ⟨none, true⟩⟩) ∧
    ((transfer_user_to_unrestricted_ou cfgEx 0 ⟨some "/R", true⟩ ⟨none, false⟩
        ⟨0, "d", "/R", none⟩ (some ⟨0, "d", "/R", none⟩)).status = 503 ∧
      (transfer_user_to_unrestricted_ou cfgEx 0 ⟨some "/R", true⟩ ⟨none, false⟩
        ⟨0, "d", "/R", none⟩ (some ⟨0, "d", "/R", none⟩)).store =
        some ⟨1, "d", "/R", none⟩ ∧
      (transfer_user_to_unrestricted_ou cfgEx 0 ⟨some "/R", true⟩ ⟨none, false⟩
        ⟨0, "d", "/R", none⟩ (some ⟨0, "d", "/R", none⟩)).dir.ou =
        some cfgEx.UNRESTRICTED_OU) :=
  ⟨(promotion_failure_paths cfgEx 0 ⟨some "/R", false⟩ ⟨none, true⟩
      ⟨0, "d", "/R", none⟩ (some ⟨0, "d", "/R", none⟩)).1 (by decide),
   (promotion_failure_paths cfgEx 0 ⟨some "/R", true⟩ ⟨none, false⟩
      ⟨0, "d", "/R", none⟩ (some ⟨0, "d", "/R", none⟩)).2 (by decide) (by decide)⟩

/-- **C9.** The toggle handler persists the (possibly rollover-reset)
record before checking the API key: a request with an invalid key and a
below-limit post-initialization count is answered 401 with the store
already holding the freshly initialized record — so even an unauthorized
request can mutate the stored record. -/
theorem record_persisted_before_auth (cfg : Config) (now nowLocal : Nat)
    (d : String) (key : Option String) (st : SysState)
    (hkey : check_api_key cfg key = false)
    (hcount : (initialize_user_data cfg d st.store).1.unrestricted_switches <
      cfg.UNRESTRICTED_SWITCH_LIMIT) :
    toggle_access cfg now nowLocal d key st =
      ⟨401, false, none,
        ⟨(initialize_user_data cfg d st.store).2, st.dir, st.sched⟩⟩ := by
  have hlim : has_exceeded_switch_limit cfg
      (initialize_user_data cfg d st.store).1 = false := by
    simp only [has_exceeded_switch_limit, decide_eq_false_iff_not, not_le]
    omega
  obtain ⟨store, dir, sched⟩ := st
  simp [toggle_access, hlim, hkey]

/-- Witness for C9: an unauthorized (no key) request on a new day is
answered 401 while the stored record was rewritten with the rollover
reset — the stored record differs from the one before the call. -/
theorem record_persisted_before_auth_witness :
    toggle_access cfgEx 0 0 "t" none
      ⟨some ⟨2, "y", "/R", none⟩, ⟨some "/R", true⟩, ⟨none, true⟩⟩ =
      ⟨401, false, none,
        ⟨some ⟨0, "t", "/R", none⟩, ⟨some "/R", true⟩, ⟨none, true⟩⟩⟩ ∧
    ¬ (some (⟨0, "t", "/R", none⟩ : UserData) = some ⟨2, "y", "/R", none⟩) :=
  ⟨record_persisted_before_auth cfgEx 0 0 "t" none
      ⟨some ⟨2, "y", "/R", none⟩, ⟨some "/R", true⟩, ⟨none, true⟩⟩
      rfl (by decide),
   by decide⟩

/-- `initialize_user_data` persists exactly the record it returns. -/
theorem initialize_user_data_snd (cfg : Config) (d : String)
    (store : Option UserData) :
    (initialize_user_data cfg d store).2 =
      some (initialize_user_data cfg d store).1 := by
  rcases store with _ | u <;> rfl

/-- A failed `set_user_ou` leaves the directory untouched. -/
theorem set_user_ou_fail_dir (dir : Directory) (target : String)
    (h : (set_user_ou dir target).ok = false) :
    (set_user_ou dir target).dir = dir := by
  rcases dir with ⟨ou, upd⟩
  rcases ou with _ | cur
  · rfl
  · by_cases hc : cur = target
    · simp [set_user_ou, get_user_ou, hc] at h
    · rcases upd <;> simp [set_user_ou, get_user_ou, hc] at h ⊢

/-- A non-200 `move_user_to_restricted_on_expiry` is the 503 abort with
nothing changed. -/
theorem move_not_200_eq (cfg : Config) (dir : Directory) (ud : UserData)
    (store : Option UserData)
    (h : ¬ (move_user_to_restricted_on_expiry cfg dir ud store).status = 200) :
    move_user_to_restricted_on_expiry cfg dir ud store =
      ⟨503, false, ud, dir, store⟩ := by
  rcases hok : (set_user_ou dir cfg.RESTRICTED_OU).ok
  · simp [move_user_to_restricted_on_expiry, hok,
      set_user_ou_fail_dir dir cfg.RESTRICTED_OU hok]
  · simp [move_user_to_restricted_on_expiry, hok] at h

/-- The toggle-path reversion never changes the stored switch count. -/
theorem move_store_count (cfg : Config) (dir : Directory) (ud u : UserData)
    (h : (move_user_to_restricted_on_expiry cfg dir ud (some ud)).store =
      some u) :
    u.unrestricted_switches = ud.unrestricted_switches := by
  rcases hok : (set_user_ou dir cfg.RESTRICTED_OU).ok <;>
      simp [move_user_to_restricted_on_expiry, hok] at h <;>
    rcases h with rfl <;> rfl

/-- The promotion changes the stored switch count by at most one. -/
theorem transfer_store_count (cfg : Config) (now : Nat) (dir : Directory)
    (sched : Scheduler) (ud u : UserData)
    (h : (transfer_user_to_unrestricted_ou cfg now dir sched ud
      (some ud)).store = some u) :
    u.unrestricted_switches = ud.unrestricted_switches ∨
    u.unrestricted_switches = ud.unrestricted_switches + 1 := by
  rcases hok : (set_user_ou dir cfg.UNRESTRICTED_OU).ok
  · simp [transfer_user_to_unrestricted_ou, hok] at h
    rcases h with rfl
    exact Or.inl rfl
  · rcases hs : (schedule_revert_job cfg now sched).time with _ | e <;>
        simp [transfer_user_to_unrestricted_ou, hok, hs] at h <;>
      rcases h with rfl <;> exact Or.inr rfl

/-- After a toggle, the stored count equals the initialized count, or
that count plus one — the latter only when the rate-limit check passed. -/
theorem toggle_count_cases (cfg : Config) (now nowLocal : Nat) (d : String)
    (key : Option String) (st : SysState) (u : UserData)
    (h : (toggle_access cfg now nowLocal d key st).state.store = some u) :
    u.unrestricted_switches =
        (initialize_user_data cfg d st.store).1.unrestricted_switches ∨
      (u.unrestricted_switches =
          (initialize_user_data cfg d st.store).1.unrestricted_switches + 1 ∧
        ¬ has_exceeded_switch_limit cfg (initialize_user_data cfg d st.store).1
            = true) := by
  have hsnd := initialize_user_data_snd cfg d st.store
  by_cases hlim : has_exceeded_switch_limit cfg
      (initialize_user_data cfg d st.store).1 = true
  · simp [toggle_access, hlim, hsnd] at h
    rcases h with rfl
    exact Or.inl rfl
  · by_cases hkey : check_api_key cfg key = true
    · by_cases hou : get_user_ou st.dir = some cfg.UNRESTRICTED_OU
      · rcases hexp : (initialize_user_data cfg d st.store).1.expiration_time_utc
            with _ | e
        · have hred : (toggle_access cfg now nowLocal d key st).state.store =
              (move_user_to_restricted_on_expiry cfg st.dir
                (initialize_user_data cfg d st.store).1
                (initialize_user_data cfg d st.store).2).store := by
            simp [toggle_access, hlim, hkey, hou, hexp]
          rw [hred, hsnd] at h
          exact Or.inl (move_store_count cfg st.dir _ u h)
        · by_cases hnow : now > e
          · have hred : (toggle_access cfg now nowLocal d key st).state.store =
                (move_user_to_restricted_on_expiry cfg st.dir
                  (initialize_user_data cfg d st.store).1
                  (initialize_user_data cfg d st.store).2).store := by
              simp [toggle_access, hlim, hkey, hou, hexp, hnow]
            rw [hred, hsnd] at h
            exact Or.inl (move_store_count cfg st.dir _ u h)
          · simp [toggle_access, hlim, hkey, hou, hexp, hnow, hsnd] at h
            rcases h with rfl
            exact Or.inl rfl
      · have hred : (toggle_access cfg now nowLocal d key st).state.store =
            (transfer_user_to_unrestricted_ou cfg now st.dir st.sched
              (initialize_user_data cfg d st.store).1
              (initialize_user_data cfg d st.store).2).store := by
          simp [toggle_access, hlim, hkey, hou]
        rw [hred, hsnd] at h
        rcases transfer_store_count cfg now st.dir st.sched _ u h with h1 | h1
        · exact Or.inl h1
        · exact Or.inr ⟨h1, hlim⟩
    · simp [toggle_access, hlim, hkey, hsnd] at h
      rcases h with rfl
      exact Or.inl rfl

/-- A completed revert callback leaves the stored count equal to some
previously stored record's count, or resets it to zero. -/
theorem cron_store_count (cfg : Config) (now : Nat) (d method : String)
    (st : SysState) (cr : CronResult) (u : UserData)
    (h : cron_revert_ou cfg now d method st = some cr)
    (hu : cr.state.store = some u) :
    (∃ v, st.store = some v ∧
      u.unrestricted_switches = v.unrestricted_switches) ∨
    u.unrestricted_switches = 0 := by
  obtain ⟨store, dir, sched⟩ := st
  by_cases hm : method = "POST"
  · rcases store with _ | ud
    · simp [cron_revert_ou, hm] at h
    · by_cases hg : ud.ou_state = cfg.UNRESTRICTED_OU ∧
          ud.expiration_time_utc = none
      · simp [cron_revert_ou, hm, hg] at h
      · by_cases hc :
            ((decide (ud.ou_state = cfg.UNRESTRICTED_OU) &&
              match ud.expiration_time_utc with
              | some e => decide (now ≥ e)
              | none => false) ||
             (decide (get_user_ou dir = some cfg.UNRESTRICTED_OU) &&
              decide (¬ ud.ou_state = cfg.UNRESTRICTED_OU))) = true
        · by_cases hr :
              (move_user_to_restricted_on_expiry cfg dir ud (some ud)).status
                = 200
          · have hmq := move_200_eq cfg dir ud (some ud) hr
            simp only [cron_revert_ou, hm, hg, hc, hmq] at h
            by_cases hro : ud.last_request_date ≠ d
            · simp [hro] at h
              rcases h with rfl
              simp at hu
              rcases hu with rfl
              exact Or.inr rfl
            · simp [hro] at h
              rcases h with rfl
              simp at hu
              rcases hu with rfl
              exact Or.inl ⟨ud, rfl, rfl⟩
          · have hmq := move_not_200_eq cfg dir ud (some ud) hr
            simp only [cron_revert_ou, hm, hg, hc, hmq] at h
            simp at h
            rcases h with rfl
            simp at hu
            rcases hu with rfl
            exact Or.inl ⟨ud, rfl, rfl⟩
        · simp only [cron_revert_ou, hm, hg, hc] at h
          by_cases hro : ud.last_request_date ≠ d
          · simp [hro] at h
            rcases h with rfl
            simp at hu
            rcases hu with rfl
            exact Or.inr rfl
          · simp [hro] at h
            rcases h with rfl
            simp at hu
            rcases hu with rfl
            exact Or.inl ⟨ud, rfl, rfl⟩
  · simp [cron_revert_ou, hm] at h
    rcases h with rfl
    exact Or.inl ⟨u, hu, rfl⟩

/-- **C4.** Bounds on the stored switch counter: assuming the stored
count respects the limit beforehand, it still does after any toggle and
after any completed revert callback; a toggle arriving (after rollover
initialization) with count at or above the limit is answered 403 carrying
the hours-until-midnight figure, with the record persisted otherwise
unchanged; and the count after a toggle either stays as initialized or
grows by exactly one, the increment only possible from strictly below the
limit. -/
theorem switch_count_invariant (cfg : Config) (now nowLocal : Nat)
    (d : String) (key : Option String) (st : SysState)
    (hpre : ∀ u, st.store = some u →
      u.unrestricted_switches ≤ cfg.UNRESTRICTED_SWITCH_LIMIT) :
    (∀ u, (toggle_access cfg now nowLocal d key st).state.store = some u →
      u.unrestricted_switches ≤ cfg.UNRESTRICTED_SWITCH_LIMIT) ∧
    (cfg.UNRESTRICTED_SWITCH_LIMIT ≤
        (initialize_user_data cfg d st.store).1.unrestricted_switches →
      toggle_access cfg now nowLocal d key st =
        ⟨403, false, some (hours_until_midnight nowLocal),
          ⟨some (initialize_user_data cfg d st.store).1, st.dir, st.sched⟩⟩) ∧
    (∀ u, (toggle_access cfg now nowLocal d key st).state.store = some u →
      u.unrestricted_switches =
          (initialize_user_data cfg d st.store).1.unrestricted_switches ∨
        (u.unrestricted_switches =
            (initialize_user_data cfg d st.store).1.unrestricted_switches + 1 ∧
          (initialize_user_data cfg d st.store).1.unrestricted_switches <
            cfg.UNRESTRICTED_SWITCH_LIMIT)) ∧
    (∀ method cr, cron_revert_ou cfg now d method st = some cr →
      ∀ u, cr.state.store = some u →
        u.unrestricted_switches ≤ cfg.UNRESTRICTED_SWITCH_LIMIT) := by
  have hc0 : (initialize_user_data cfg d st.store).1.unrestricted_switches ≤
      cfg.UNRESTRICTED_SWITCH_LIMIT := by
    rcases hst : st.store with _ | v
    · simp [initialize_user_data, hst]
    · by_cases hdt : v.last_request_date ≠ d
      · simp [initialize_user_data, hst, hdt]
      · simpa [initialize_user_data, hst, hdt] using hpre v hst
  refine ⟨?_, ?_, ?_, ?_⟩
  · intro u h
    rcases toggle_count_cases cfg now nowLocal d key st u h with h1 | ⟨h1, h2⟩
    · omega
    · simp only [has_exceeded_switch_limit, decide_eq_true_eq, not_le,
        ge_iff_le] at h2
      omega
  · intro hge
    have hlim : has_exceeded_switch_limit cfg
        (initialize_user_data cfg d st.store).1 = true := by
      simpa [has_exceeded_switch_limit] using hge
    obtain ⟨store, dir, sched⟩ := st
    simp [toggle_access, hlim, initialize_user_data_snd]
  · intro u h
    rcases toggle_count_cases cfg now nowLocal d key st u h with h1 | ⟨h1, h2⟩
    · exact Or.inl h1
    · refine Or.inr ⟨h1, ?_⟩
      simpa [has_exceeded_switch_limit] using h2
  · intro method cr hcr u hu
    rcases cron_store_count cfg now d method st cr u hcr hu with ⟨v, hv, hcnt⟩ | hcnt
    · have := hpre v hv
      omega
    · omega

/-- Witness for C4: at the limit, a concrete toggle is answered 403 with
the hours figure and the record persisted unchanged. -/
theorem switch_count_invariant_witness :
    toggle_access cfgEx 10000 5000 "d" (some "k") stAtLimit =
      ⟨403, false, some (hours_until_midnight 5000),
        ⟨some ⟨3, "d", "/R", none⟩, ⟨some "/R", true⟩, ⟨none, true⟩⟩⟩ :=
  (switch_count_invariant cfgEx 10000 5000 "d" (some "k") stAtLimit
    (fun u hu => (Option.some.inj hu) ▸ (by decide))).2.1 (by decide)

/-- The revert-condition boolean of `cron_revert_ou`, as a proposition:
record claims UNRESTRICTED with an expiration at or before now, or the
actual OU is UNRESTRICTED while the record disagrees. -/
theorem cron_cond_iff (cfg : Config) (now : Nat) (ouState : String)
    (exp : Option Nat) (cur : Option String) :
    (((decide (ouState = cfg.UNRESTRICTED_OU) &&
        match exp with
        | some e => decide (now ≥ e)
        | none => false) ||
      (decide (cur = some cfg.UNRESTRICTED_OU) &&
        decide (¬ ouState = cfg.UNRESTRICTED_OU))) = true) ↔
    ((ouState = cfg.UNRESTRICTED_OU ∧ ∃ e, exp = some e ∧ e ≤ now) ∨
      (cur = some cfg.UNRESTRICTED_OU ∧ ¬ ouState = cfg.UNRESTRICTED_OU)) := by
  rcases exp with _ | e <;> simp [ge_iff_le, and_comm]

/-- **C7.** A completed POST revert callback enters its revert branch
exactly when the stored record says UNRESTRICTED with an expiration time
at or before the current time, or the actual directory OU reads
UNRESTRICTED while the stored record disagrees; and every 200 response it
produces carries a success flag equal to whether the stored record now
shows the restricted OU. -/
theorem cron_revert_condition_and_success (cfg : Config) (now : Nat)
    (d : String) (st : SysState) (u : UserData) (r : CronResult)
    (hstore : st.store = some u)
    (h : cron_revert_ou cfg now d "POST" st = some r) :
    (r.revertAttempted = true ↔
      ((u.ou_state = cfg.UNRESTRICTED_OU ∧
          ∃ e, u.expiration_time_utc = some e ∧ e ≤ now) ∨
        (get_user_ou st.dir = some cfg.UNRESTRICTED_OU ∧
          ¬ u.ou_state = cfg.UNRESTRICTED_OU))) ∧
    (r.status = 200 →
      (r.success = true ↔
        ∃ v, r.state.store = some v ∧ v.ou_state = cfg.RESTRICTED_OU)) := by
  obtain ⟨store, dir, sched⟩ := st
  simp only [SysState.store] at hstore
  subst hstore
  simp only [SysState.dir]
  by_cases hg : u.ou_state = cfg.UNRESTRICTED_OU ∧ u.expiration_time_utc = none
  · simp [cron_revert_ou, hg] at h
  · by_cases hc :
        ((decide (u.ou_state = cfg.UNRESTRICTED_OU) &&
          match u.expiration_time_utc with
          | some e => decide (now ≥ e)
          | none => false) ||
         (decide (get_user_ou dir = some cfg.UNRESTRICTED_OU) &&
          decide (¬ u.ou_state = cfg.UNRESTRICTED_OU))) = true
    · have hcond := (cron_cond_iff cfg now u.ou_state u.expiration_time_utc
        (get_user_ou dir)).mp hc
      by_cases hr :
          (move_user_to_restricted_on_expiry cfg dir u (some u)).status = 200
      · have hmq := move_200_eq cfg dir u (some u) hr
        simp only [cron_revert_ou, hg, hc, hmq] at h
        by_cases hro : u.last_request_date ≠ d <;>
            simp [hro] at h <;> rcases h with rfl
        · exact ⟨⟨fun _ => hcond, fun _ => rfl⟩, fun _ => by simp⟩
        · exact ⟨⟨fun _ => hcond, fun _ => rfl⟩, fun _ => by simp⟩
      · have hmq := move_not_200_eq cfg dir u (some u) hr
        simp only [cron_revert_ou, hg, hc, hmq] at h
        simp at h
        rcases h with rfl
        refine ⟨⟨fun _ => hcond, fun _ => rfl⟩, fun h200 => ?_⟩
        simp at h200
    · simp only [cron_revert_ou, hg, hc] at h
      by_cases hro : u.last_request_date ≠ d <;>
          simp [hro] at h <;> rcases h with rfl
      · refine ⟨⟨fun hft => ?_, fun hp => ?_⟩, fun _ => by simp⟩
        · simp at hft
        · exact absurd ((cron_cond_iff cfg now u.ou_state u.expiration_time_utc
            (get_user_ou dir)).mpr hp) hc
      · refine ⟨⟨fun hft => ?_, fun hp => ?_⟩, fun _ => by simp⟩
        · simp at hft
        · exact absurd ((cron_cond_iff cfg now u.ou_state u.expiration_time_utc
            (get_user_ou dir)).mpr hp) hc

/-- Witness for C7 at a concrete input: a record claiming UNRESTRICTED
with expiration 20000 at time 30000 makes the callback revert, and its
200 response reports success with the stored record restricted. -/
theorem cron_revert_condition_and_success_witness :
    ((⟨200, true, true, ⟨some ⟨1, "d", "/R", none⟩, ⟨some "/R", true⟩,
        ⟨none, true⟩⟩⟩ : CronResult).revertAttempted = true ↔
      ((("/U" : String) = cfgEx.UNRESTRICTED_OU ∧
          ∃ e, (some 20000 : Option Nat) = some e ∧ e ≤ 30000) ∨
        (get_user_ou ⟨some "/U", true⟩ = some cfgEx.UNRESTRICTED_OU ∧
          ¬ ("/U" : String) = cfgEx.UNRESTRICTED_OU))) ∧
    ((⟨200, true, true, ⟨some ⟨1, "d", "/R", none⟩, ⟨some "/R", true⟩,
        ⟨none, true⟩⟩⟩ : CronResult).status = 200 →
      ((⟨200, true, true, ⟨some ⟨1, "d", "/R", none⟩, ⟨some "/R", true⟩,
          ⟨none, true⟩⟩⟩ : CronResult).success = true ↔
        ∃ v, (⟨200, true, true, ⟨some ⟨1, "d", "/R", none⟩, ⟨some "/R", true⟩,
          ⟨none, true⟩⟩⟩ : CronResult).state.store = some v ∧
          v.ou_state = cfgEx.RESTRICTED_OU)) :=
  cron_revert_condition_and_success cfgEx 30000 "d"
    ⟨some ⟨1, "d", "/U", some 20000⟩, ⟨some "/U", true⟩, ⟨some 20040, true⟩⟩
    ⟨1, "d", "/U", some 20000⟩
    ⟨200, true, true, ⟨some ⟨1, "d", "/R", none⟩, ⟨some "/R", true⟩,
      ⟨none, true⟩⟩⟩
    rfl (by decide)

end GwsYt
